import Mathlib

/-
Verification of the HiPS tile-metadata fragment: a shallow embedding of
src/hips/tiles/tile_meta.py (class HipsTileMeta) and
src/hips/utils/healpix.py (function boundaries).

The repository code is thin glue around three external libraries
(healpy for spherical pixelization, astropy for sky coordinates and WCS,
skimage for projective-transform estimation).  Those external calls are
modelled abstractly: an `ExtLib` record supplies the external functions,
and theorems that depend on the external libraries' documented behaviour
take that behaviour as an explicit contract hypothesis.  The repository
code itself is translated definition-for-definition below.

Python numeric arrays of angles are modelled as lists over an abstract
field `R` (the code only moves the numbers around and computes
`pi / 2 - theta` elementwise); `np.pi` is a field of `ExtLib` since it is
an external constant.  `pathlib.Path` objects are modelled as lists of
path components; `Path.__truediv__` is list append of one component.
-/

namespace Hips

/-- A 3D vector, one corner returned by healpy.boundaries after transpose. -/
structure Vec3 (R : Type) where
  x : R
  y : R
  z : R
deriving DecidableEq, Repr

/-- An astropy SkyCoord holding four corner coordinates.  The source
constructs it either with keywords l=, b= (galactic branch) or with
keywords ra=, dec= (all other frames); the two keyword sets are kept as
distinct constructors, each also recording the frame string passed. -/
inductive SkyCoord (R : Type) where
  | lb (l : List R) (b : List R) (frame : String)
  | radec (ra : List R) (dec : List R) (frame : String)
deriving DecidableEq, Repr

/-- The fields stored verbatim by HipsTileMeta.__init__ (no validation).
order and ipix are non-negative per the data model; tile_width is a
Python int, kept as an integer so that tile_width - 1 is exact. -/
structure HipsTileMeta where
  order : ℕ
  ipix : ℕ
  file_format : String
  frame : String
  tile_width : ℤ
deriving DecidableEq, Repr

/-- The external libraries used by the fragment: healpy (pi,
hp_boundaries = healpy.boundaries returning the (3,4) array as a triple
of coordinate rows, vec2ang = healpy.vec2ang), astropy
(to_pixel = SkyCoord.to_pixel against a WCS of abstract type W), and
skimage (init_pt = tf.ProjectiveTransform(), estimate mutating a
transform of abstract type PT and returning a success flag, pt_invalid
reading whether a transform is flagged invalid, e.g. NaN parameters). -/
structure ExtLib (R : Type) (PT : Type) (W : Type) where
  pi : R
  hp_boundaries : ℕ → ℕ → Bool → List R × List R × List R
  vec2ang : List (Vec3 R) → List R × List R
  to_pixel : SkyCoord R → W → List R × List R
  init_pt : PT
  estimate : PT → List (R × R) → List (R × R) → Except String (Bool × PT)
  pt_invalid : PT → Bool

/-- np.transpose on the (3,4) array returned by healpy.boundaries:
turns the triple of coordinate rows into the list of corner vectors. -/
def npTranspose {R : Type} (a : List R × List R × List R) : List (Vec3 R) :=
  (a.1.zip (a.2.1.zip a.2.2)).map (fun p => ⟨p.1, p.2.1, p.2.2⟩)

/-- src/hips/utils/healpix.py, boundaries(nside, pix, nest=False):
boundary_coords = healpy.boundaries(nside, pix, nest=nest);
theta, phi = healpy.vec2ang(np.transpose(boundary_coords));
return theta, phi.  The Python default nest=False is recorded by
boundariesDefault below. -/
def boundaries {R PT W : Type} (lib : ExtLib R PT W) (nside : ℕ) (pix : ℕ)
    (nest : Bool) : List R × List R :=
  lib.vec2ang (npTranspose (lib.hp_boundaries nside pix nest))

/-- A call boundaries(nside, pix) with the nest argument omitted:
Python supplies the default nest=False. -/
def boundariesDefault {R PT W : Type} (lib : ExtLib R PT W) (nside : ℕ)
    (pix : ℕ) : List R × List R :=
  boundaries lib nside pix false

/-- healpy.order2nside: computes nside as a left shift of 1 by order. -/
def hp_order2nside (order : ℕ) : ℕ :=
  1 <<< order

namespace HipsTileMeta

/-- HipsTileMeta.__eq__: compares order, ipix, file_format and
tile_width of the two operands; frame is not compared. -/
def beq (self other : HipsTileMeta) : Bool :=
  self.order == other.order &&
  self.ipix == other.ipix &&
  self.file_format == other.file_format &&
  self.tile_width == other.tile_width

/-- HipsTileMeta.path: returns Path('hips', 'tiles', 'tests', 'data'),
independent of every stored field. -/
def path (_self : HipsTileMeta) : List String :=
  ["hips", "tiles", "tests", "data"]

/-- HipsTileMeta.filename: ''.join(['Npix', str(self.ipix), '.', self.file_format]). -/
def filename (self : HipsTileMeta) : String :=
  String.join ["Npix", toString self.ipix, ".", self.file_format]

/-- HipsTileMeta.full_path: self.path / self.filename. -/
def full_path (self : HipsTileMeta) : List String :=
  path self ++ [filename self]

/-- HipsTileMeta.nside: hp.order2nside(self.order). -/
def nside (self : HipsTileMeta) : ℕ :=
  hp_order2nside self.order

/-- HipsTileMeta.dst: np.array([[w-1, 0], [w-1, w-1], [0, w-1], [0, 0]])
with w = self.tile_width, kept as the list of its four rows. -/
def dst (self : HipsTileMeta) : List (ℤ × ℤ) :=
  [(self.tile_width - 1, 0),
   (self.tile_width - 1, self.tile_width - 1),
   (0, self.tile_width - 1),
   (0, 0)]

/-- HipsTileMeta.skycoord_corners:
theta, phi = boundaries(self.nside, self.ipix)  (nest defaulted);
if self.frame == 'galactic': SkyCoord(l=phi, b=np.pi/2 - theta, frame=self.frame)
else: SkyCoord(ra=phi, dec=np.pi/2 - theta, frame=self.frame).
np.pi/2 - theta is the elementwise numpy broadcast. -/
def skycoord_corners {R PT W : Type} [Field R] (lib : ExtLib R PT W)
    (self : HipsTileMeta) : SkyCoord R :=
  let tp := boundariesDefault lib (nside self) self.ipix
  if self.frame = "galactic" then
    SkyCoord.lb tp.2 (tp.1.map (fun t => lib.pi / 2 - t)) self.frame
  else
    SkyCoord.radec tp.2 (tp.1.map (fun t => lib.pi / 2 - t)) self.frame

/-- The src array built inside apply_projection:
corners = self.skycoord_corners.to_pixel(wcs) gives the pair of x and y
arrays; np.array(corners).T.reshape((4, 2)) pairs them up rowwise. -/
def srcOf {R PT W : Type} [Field R] (lib : ExtLib R PT W)
    (self : HipsTileMeta) (wcs : W) : List (R × R) :=
  let corners := lib.to_pixel (skycoord_corners lib self) wcs
  corners.1.zip corners.2

/-- self.dst with its integer entries cast to the scalar type, as numpy
upcasts the integer destination array when estimating the transform. -/
def dstR {R : Type} [Field R] (self : HipsTileMeta) : List (R × R) :=
  (dst self).map (fun p => ((p.1 : R), (p.2 : R)))

/-- HipsTileMeta.apply_projection(wcs): builds src and dst, creates
pt = tf.ProjectiveTransform(), calls pt.estimate(src, dst) discarding
the returned success flag, and returns pt.  An exception raised by the
estimation is propagated unchanged (the source has no try/except). -/
def apply_projection {R PT W : Type} [Field R] (lib : ExtLib R PT W)
    (self : HipsTileMeta) (wcs : W) : Except String PT :=
  match lib.estimate lib.init_pt (srcOf lib self wcs) (dstR self) with
  | Except.error e => Except.error e
  | Except.ok (_flag, pt) => Except.ok pt

end HipsTileMeta

/-- Spec-side definition, following the spec words for
skyCornersCoordinate: call BoundaryAngles(nside, pixelIndex) to get
(theta, phi); if frame is galactic, build sky coordinates as
(longitude=phi, latitude=pi/2 - theta) in the galactic frame; otherwise
build as (rightAscension=phi, declination=pi/2 - theta) in the given
frame.  To be compared with HipsTileMeta.skycoord_corners. -/
def skyCornersCoordinate_spec {R PT W : Type} [Field R] (lib : ExtLib R PT W)
    (self : HipsTileMeta) : SkyCoord R :=
  let tp := boundariesDefault lib (HipsTileMeta.nside self) self.ipix
  if self.frame = "galactic" then
    SkyCoord.lb tp.2 (tp.1.map (fun t => lib.pi / 2 - t)) "galactic"
  else
    SkyCoord.radec tp.2 (tp.1.map (fun t => lib.pi / 2 - t)) self.frame

/-- Spec-side definition, following the spec words for destinationQuad:
the fixed 4x2 coordinate array [(w-1,0), (w-1,w-1), (0,w-1), (0,0)]
where w = tileWidth.  To be compared with HipsTileMeta.dst. -/
def destinationQuad_spec (self : HipsTileMeta) : List (ℤ × ℤ) :=
  [(self.tile_width - 1, 0),
   (self.tile_width - 1, self.tile_width - 1),
   (0, self.tile_width - 1),
   (0, 0)]

/-- A valid HEALPix nside: a power of two. -/
def IsValidNside (n : ℕ) : Prop :=
  ∃ k : ℕ, n = 2 ^ k

/-- The documented contract of the healpy calls wrapped by boundaries:
for a valid nside and a pixel index below 12 * nside^2,
healpy.boundaries returns four corner vectors (the rows of the (3,4)
array all have length 4) that are unit vectors, and healpy.vec2ang
returns one theta and one phi per input vector, with theta between 0
and pi (colatitude) and phi in [0, 2*pi). -/
structure HealpyOK {R PT W : Type} [LinearOrderedField R]
    (lib : ExtLib R PT W) : Prop where
  corners_len : ∀ n p b, IsValidNside n → p < 12 * n ^ 2 →
    (lib.hp_boundaries n p b).1.length = 4 ∧
    (lib.hp_boundaries n p b).2.1.length = 4 ∧
    (lib.hp_boundaries n p b).2.2.length = 4
  corners_unit : ∀ n p b, IsValidNside n → p < 12 * n ^ 2 →
    ∀ v ∈ npTranspose (lib.hp_boundaries n p b),
      v.x ^ 2 + v.y ^ 2 + v.z ^ 2 = 1
  vec2ang_len : ∀ vs : List (Vec3 R),
    (lib.vec2ang vs).1.length = vs.length ∧
    (lib.vec2ang vs).2.length = vs.length
  vec2ang_theta : ∀ vs : List (Vec3 R), ∀ t ∈ (lib.vec2ang vs).1,
    0 ≤ t ∧ t ≤ lib.pi
  vec2ang_phi : ∀ vs : List (Vec3 R), ∀ q ∈ (lib.vec2ang vs).2,
    0 ≤ q ∧ q < 2 * lib.pi

/- Dynamic model of Python attribute access and == for the __eq__
analysis: the right-hand operand of __eq__ is an arbitrary object whose
attributes may be absent (access then raises AttributeError) or hold a
value of any type (== across int and str is False, never an error). -/

/-- A Python attribute value: an int or a str (the types stored by
HipsTileMeta plus anything comparable; == across the two is False). -/
inductive PyVal where
  | int (n : ℤ)
  | str (s : String)
deriving DecidableEq, Repr

/-- Python == between two attribute values: equal ints or equal strings
compare True, everything else (including mixed types) compares False. -/
def pyEq (a b : PyVal) : Bool :=
  match a, b with
  | PyVal.int n, PyVal.int m => n == m
  | PyVal.str s, PyVal.str t => s == t
  | _, _ => false

/-- An arbitrary right-hand operand for __eq__: each of the four
attributes read by the method may be present or absent. -/
structure PyObj where
  order : Option PyVal
  ipix : Option PyVal
  file_format : Option PyVal
  tile_width : Option PyVal
deriving DecidableEq, Repr

/-- Python attribute read: the value when present, AttributeError when
absent. -/
def pyGetAttr (a : Option PyVal) : Except String PyVal :=
  match a with
  | some v => Except.ok v
  | none => Except.error ("AttributeError")

/-- HipsTileMeta.__eq__ against an arbitrary object, following the
source line by line: the four conjuncts are evaluated left to right
with Python and-short-circuiting, each reading one attribute of the
other operand (raising AttributeError if absent) before comparing. -/
def eqDyn (self : HipsTileMeta) (other : PyObj) : Except String Bool :=
  match pyGetAttr other.order with
  | Except.error e => Except.error e
  | Except.ok v1 =>
    if pyEq (PyVal.int (self.order : ℤ)) v1 then
      match pyGetAttr other.ipix with
      | Except.error e => Except.error e
      | Except.ok v2 =>
        if pyEq (PyVal.int (self.ipix : ℤ)) v2 then
          match pyGetAttr other.file_format with
          | Except.error e => Except.error e
          | Except.ok v3 =>
            if pyEq (PyVal.str self.file_format) v3 then
              match pyGetAttr other.tile_width with
              | Except.error e => Except.error e
              | Except.ok v4 => Except.ok (pyEq (PyVal.int self.tile_width) v4)
            else
              Except.ok false
        else
          Except.ok false
    else
      Except.ok false

/- Effectful versions of every operation, for the purity analysis.
Python methods receive the instance and could assign to its attributes;
each operation is therefore re-embedded as a state transformer
returning (result, instance after the call).  Each body below repeats
the source body, which contains attribute reads only and no assignment,
so the instance handed back is the instance received. -/

namespace HipsTileMeta

/-- HipsTileMeta.path as a state transformer on the instance. -/
def path_run (self : HipsTileMeta) : List String × HipsTileMeta :=
  (["hips", "tiles", "tests", "data"], self)

/-- HipsTileMeta.filename as a state transformer on the instance. -/
def filename_run (self : HipsTileMeta) : String × HipsTileMeta :=
  (String.join ["Npix", toString self.ipix, ".", self.file_format], self)

/-- HipsTileMeta.full_path as a state transformer on the instance. -/
def full_path_run (self : HipsTileMeta) : List String × HipsTileMeta :=
  ((path_run self).1 ++ [(filename_run self).1], self)

/-- HipsTileMeta.nside as a state transformer on the instance. -/
def nside_run (self : HipsTileMeta) : ℕ × HipsTileMeta :=
  (hp_order2nside self.order, self)

/-- HipsTileMeta.dst as a state transformer on the instance. -/
def dst_run (self : HipsTileMeta) : List (ℤ × ℤ) × HipsTileMeta :=
  ([(self.tile_width - 1, 0),
    (self.tile_width - 1, self.tile_width - 1),
    (0, self.tile_width - 1),
    (0, 0)], self)

/-- HipsTileMeta.skycoord_corners as a state transformer on the
instance. -/
def skycoord_corners_run {R PT W : Type} [Field R] (lib : ExtLib R PT W)
    (self : HipsTileMeta) : SkyCoord R × HipsTileMeta :=
  (skycoord_corners lib self, self)

/-- HipsTileMeta.apply_projection as a state transformer on the
instance. -/
def apply_projection_run {R PT W : Type} [Field R] (lib : ExtLib R PT W)
    (self : HipsTileMeta) (wcs : W) : Except String PT × HipsTileMeta :=
  (apply_projection lib self wcs, self)

end HipsTileMeta

/-- The instance of the doc example: HipsTileMeta(order=3, ipix=450,
file_format='fits', frame='galactic', tile_width=512). -/
def meta0 : HipsTileMeta :=
  ⟨3, 450, "fits", "galactic", 512⟩

/-- An icrs instance sharing the four compared fields with meta0. -/
def meta0icrs : HipsTileMeta :=
  ⟨3, 450, "fits", "icrs", 512⟩

/-- A concrete external-library instance over the rationals, used to
evaluate the glue code at concrete inputs: every pixel has the four
corners (1,0,0) and vec2ang maps every vector to the angle pair (0,0);
pi stands at 4 and transform estimation reports a failure. -/
def lib0 : ExtLib ℚ Bool Unit where
  pi := 4
  hp_boundaries := fun _ _ _ => ([1, 1, 1, 1], [0, 0, 0, 0], [0, 0, 0, 0])
  vec2ang := fun vs => (vs.map (fun _ => 0), vs.map (fun _ => 0))
  to_pixel := fun _ _ => ([0, 0, 0, 0], [0, 0, 0, 0])
  init_pt := false
  estimate := fun _ _ _ => Except.error ("estimation failed")
  pt_invalid := fun b => b

/-- An object that exposes an order attribute (with a value different
from meta0.order) but lacks ipix, file_format and tile_width. -/
def objMissingIpix : PyObj :=
  ⟨some (PyVal.int 99), none, none, none⟩

/-- An object lacking all four attributes read by the equality method. -/
def objEmpty : PyObj :=
  ⟨none, none, none, none⟩

/-- An object carrying exactly the four compared attribute values of
meta0 (order 3, ipix 450, file_format fits, tile_width 512). -/
def objFull : PyObj :=
  ⟨some (PyVal.int 3), some (PyVal.int 450),
   some (PyVal.str "fits"), some (PyVal.int 512)⟩

/-- An object with a matching order attribute but no ipix attribute. -/
def objOrderOnly : PyObj :=
  ⟨some (PyVal.int 3), none, none, none⟩

/-- Claim C2: two HipsTileMeta instances compare equal if and only if
their order, ipix, file_format and tile_width agree; the frame field
plays no role, so instances agreeing on those four fields but differing
in frame compare equal. -/
theorem C2_eq_iff_four_fields (a b : HipsTileMeta) :
    HipsTileMeta.beq a b = true ↔
      (a.order = b.order ∧ a.ipix = b.ipix ∧
       a.file_format = b.file_format ∧ a.tile_width = b.tile_width) := by
  simp [HipsTileMeta.beq, Bool.and_eq_true, beq_iff_eq, and_assoc]

/-- Claim C4: for every HipsTileMeta (order ranges over the
non-negative integers), the nside property equals 2 to the power order
exactly, as an integer. -/
theorem C4_nside_is_pow_two (m : HipsTileMeta) :
    HipsTileMeta.nside m = 2 ^ m.order := by
  simp [HipsTileMeta.nside, hp_order2nside, Nat.shiftLeft_eq]

/-- Claim C5: the destination quad is exactly the 4x2 array
[(w-1,0), (w-1,w-1), (0,w-1), (0,0)] with w the tile width, and for the
default width 512 it is [(511,0),(511,511),(0,511),(0,0)]. -/
theorem C5_dst_quad (m : HipsTileMeta) :
    HipsTileMeta.dst m = destinationQuad_spec m ∧
    HipsTileMeta.dst meta0 = [(511, 0), (511, 511), (0, 511), (0, 0)] := by
  exact ⟨rfl, by decide⟩

/-- Claim C7: the filename property is the concatenation of Npix, the
decimal rendering of ipix, a dot, and the file format; in particular
for ipix 450 and format fits it is Npix450.fits. -/
theorem C7_filename_concat (m : HipsTileMeta) :
    HipsTileMeta.filename m =
      "Npix" ++ toString m.ipix ++ "." ++ m.file_format ∧
    HipsTileMeta.filename meta0 = "Npix450.fits" := by
  constructor
  · simp [HipsTileMeta.filename, String.join, List.foldl]
  · decide

/-- Claim C8: the path property is the same fixed relative directory
for every instance, regardless of all five stored fields, and full_path
is that directory joined with the filename. -/
theorem C8_path_constant_full_path_join :
    (∀ a b : HipsTileMeta, HipsTileMeta.path a = HipsTileMeta.path b) ∧
    (∀ a : HipsTileMeta,
      HipsTileMeta.full_path a =
        HipsTileMeta.path a ++ [HipsTileMeta.filename a]) :=
  ⟨fun _ _ => rfl, fun _ => rfl⟩

/-- Claim C1: for every HipsTileMeta whose frame is icrs, galactic or
ecliptic, skycoord_corners first obtains (theta, phi) from
boundaries(nside, ipix), then returns (l=phi, b=pi/2-theta) in the
galactic frame when the frame is galactic, and (ra=phi, dec=pi/2-theta)
tagged with the given frame otherwise — the behaviour stated by the
spec-side definition skyCornersCoordinate_spec. -/
theorem C1_skycoord_corners_follows_spec {R PT W : Type} [Field R]
    (lib : ExtLib R PT W) (m : HipsTileMeta)
    (_h : m.frame = "icrs" ∨ m.frame = "galactic" ∨ m.frame = "ecliptic") :
    HipsTileMeta.skycoord_corners lib m = skyCornersCoordinate_spec lib m := by
  by_cases hg : m.frame = "galactic"
  · simp [HipsTileMeta.skycoord_corners, skyCornersCoordinate_spec, hg]
  · simp [HipsTileMeta.skycoord_corners, skyCornersCoordinate_spec, hg]

/-- Witness for C1 at the documented example instance (order 3,
ipix 450, fits, galactic, 512) and the concrete library lib0. -/
theorem C1_skycoord_corners_follows_spec_witness :
    (meta0.frame = "icrs" ∨ meta0.frame = "galactic" ∨
      meta0.frame = "ecliptic") ∧
    HipsTileMeta.skycoord_corners lib0 meta0 =
      skyCornersCoordinate_spec lib0 meta0 :=
  ⟨Or.inr (Or.inl rfl),
   C1_skycoord_corners_follows_spec lib0 meta0 (Or.inr (Or.inl rfl))⟩

/-- Claim C3: when the external estimation routine, at the exact source
and destination correspondences that apply_projection assembles, either
fails (raises) or returns a transform flagged as invalid — the
documented behaviour on degenerate correspondences such as four
collinear corners — then apply_projection itself either propagates that
very failure unmasked or returns that flagged-invalid transform; it
never converts the failure into an unflagged result. -/
theorem C3_degenerate_estimation_propagates {R PT W : Type} [Field R]
    (lib : ExtLib R PT W) (m : HipsTileMeta) (wcs : W)
    (h : (∃ e, lib.estimate lib.init_pt (HipsTileMeta.srcOf lib m wcs)
            (HipsTileMeta.dstR m) = Except.error e) ∨
         (∃ fl pt, lib.estimate lib.init_pt (HipsTileMeta.srcOf lib m wcs)
            (HipsTileMeta.dstR m) = Except.ok (fl, pt) ∧
            lib.pt_invalid pt = true)) :
    (∃ e, HipsTileMeta.apply_projection lib m wcs = Except.error e ∧
          lib.estimate lib.init_pt (HipsTileMeta.srcOf lib m wcs)
            (HipsTileMeta.dstR m) = Except.error e) ∨
    (∃ pt, HipsTileMeta.apply_projection lib m wcs = Except.ok pt ∧
           lib.pt_invalid pt = true) := by
  rcases h with ⟨e, he⟩ | ⟨fl, pt, hok, hinv⟩
  · exact Or.inl ⟨e, by simp [HipsTileMeta.apply_projection, he], he⟩
  · exact Or.inr ⟨pt, by simp [HipsTileMeta.apply_projection, hok], hinv⟩

/-- Witness for C3 at the concrete library lib0, whose estimation
routine reports a failure. -/
theorem C3_degenerate_estimation_propagates_witness :
    ((∃ e, lib0.estimate lib0.init_pt
        (HipsTileMeta.srcOf lib0 meta0 ()) (HipsTileMeta.dstR meta0) =
        Except.error e) ∨
     (∃ fl pt, lib0.estimate lib0.init_pt
        (HipsTileMeta.srcOf lib0 meta0 ()) (HipsTileMeta.dstR meta0) =
        Except.ok (fl, pt) ∧ lib0.pt_invalid pt = true)) ∧
    ((∃ e, HipsTileMeta.apply_projection lib0 meta0 () = Except.error e ∧
        lib0.estimate lib0.init_pt (HipsTileMeta.srcOf lib0 meta0 ())
          (HipsTileMeta.dstR meta0) = Except.error e) ∨
     (∃ pt, HipsTileMeta.apply_projection lib0 meta0 () = Except.ok pt ∧
        lib0.pt_invalid pt = true)) :=
  ⟨Or.inl ⟨"estimation failed", rfl⟩,
   C3_degenerate_estimation_propagates lib0 meta0 ()
     (Or.inl ⟨"estimation failed", rfl⟩)⟩

/-- Claim C9: every operation (path, filename, full_path, nside, dst,
skycoord_corners, apply_projection, and the boundaries wrapper) is
deterministic and side-effect-free: re-running an operation on the
instance it handed back yields the same result, and each call returns
the instance with all five stored fields unchanged. -/
theorem C9_operations_pure {R PT W : Type} [Field R] (lib : ExtLib R PT W)
    (m : HipsTileMeta) (wcs : W) (nside pix : ℕ) (nest : Bool) :
    ((HipsTileMeta.path_run m).2 = m ∧
      (HipsTileMeta.path_run (HipsTileMeta.path_run m).2).1 =
        (HipsTileMeta.path_run m).1) ∧
    ((HipsTileMeta.filename_run m).2 = m ∧
      (HipsTileMeta.filename_run (HipsTileMeta.filename_run m).2).1 =
        (HipsTileMeta.filename_run m).1) ∧
    ((HipsTileMeta.full_path_run m).2 = m ∧
      (HipsTileMeta.full_path_run (HipsTileMeta.full_path_run m).2).1 =
        (HipsTileMeta.full_path_run m).1) ∧
    ((HipsTileMeta.nside_run m).2 = m ∧
      (HipsTileMeta.nside_run (HipsTileMeta.nside_run m).2).1 =
        (HipsTileMeta.nside_run m).1) ∧
    ((HipsTileMeta.dst_run m).2 = m ∧
      (HipsTileMeta.dst_run (HipsTileMeta.dst_run m).2).1 =
        (HipsTileMeta.dst_run m).1) ∧
    ((HipsTileMeta.skycoord_corners_run lib m).2 = m ∧
      (HipsTileMeta.skycoord_corners_run lib
        (HipsTileMeta.skycoord_corners_run lib m).2).1 =
        (HipsTileMeta.skycoord_corners_run lib m).1) ∧
    ((HipsTileMeta.apply_projection_run lib m wcs).2 = m ∧
      (HipsTileMeta.apply_projection_run lib
        (HipsTileMeta.apply_projection_run lib m wcs).2 wcs).1 =
        (HipsTileMeta.apply_projection_run lib m wcs).1) ∧
    boundaries lib nside pix nest = boundaries lib nside pix nest ∧
    ((HipsTileMeta.path_run m).1 = HipsTileMeta.path m ∧
     (HipsTileMeta.filename_run m).1 = HipsTileMeta.filename m ∧
     (HipsTileMeta.full_path_run m).1 = HipsTileMeta.full_path m ∧
     (HipsTileMeta.nside_run m).1 = HipsTileMeta.nside m ∧
     (HipsTileMeta.dst_run m).1 = HipsTileMeta.dst m ∧
     (HipsTileMeta.skycoord_corners_run lib m).1 =
       HipsTileMeta.skycoord_corners lib m ∧
     (HipsTileMeta.apply_projection_run lib m wcs).1 =
       HipsTileMeta.apply_projection lib m wcs) :=
  ⟨⟨rfl, rfl⟩, ⟨rfl, rfl⟩, ⟨rfl, rfl⟩, ⟨rfl, rfl⟩, ⟨rfl, rfl⟩,
   ⟨rfl, rfl⟩, ⟨rfl, rfl⟩, rfl,
   rfl, rfl, rfl, rfl, rfl, rfl, rfl⟩

/-- Counterexample to C10 as stated: the object objMissingIpix lacks
the ipix attribute (and two more of the four read attributes), yet
comparing meta0 with it returns False instead of raising an
AttributeError, because the first conjunct self.order == other.order is
already False and the Python conjunction short-circuits. -/
theorem C10_counterexample :
    objMissingIpix.ipix = none ∧
    eqDyn meta0 objMissingIpix = Except.ok false := by
  exact ⟨rfl, rfl⟩

/-- Claim C10 amended: HipsTileMeta.__eq__ reads order, ipix,
file_format and tile_width from the other operand in that sequence with
Python short-circuit conjunction and no type check or NotImplemented
fallback.  Consequently: an operand lacking order always raises
AttributeError; when order is present but compares unequal the method
returns False without touching the later attributes, so a missing later
attribute raises only when every earlier comparison succeeded (shown
here for ipix); and an operand carrying all four attributes always
yields a boolean, never an error. -/
theorem C10_eq_attribute_access (self : HipsTileMeta) (other : PyObj) :
    (other.order = none →
      eqDyn self other = Except.error ("AttributeError")) ∧
    (∀ v, other.order = some v →
      pyEq (PyVal.int (self.order : ℤ)) v = false →
      eqDyn self other = Except.ok false) ∧
    (∀ v, other.order = some v →
      pyEq (PyVal.int (self.order : ℤ)) v = true →
      other.ipix = none →
      eqDyn self other = Except.error ("AttributeError")) ∧
    ((∃ a, other.order = some a) → (∃ b, other.ipix = some b) →
     (∃ c, other.file_format = some c) → (∃ d, other.tile_width = some d) →
      ∃ r : Bool, eqDyn self other = Except.ok r) := by
  refine ⟨?_, ?_, ?_, ?_⟩
  · intro h
    simp [eqDyn, pyGetAttr, h]
  · intro v hv hf
    simp [eqDyn, pyGetAttr, hv, hf]
  · intro v hv ht hnone
    simp [eqDyn, pyGetAttr, hv, ht, hnone]
  · rintro ⟨a, ha⟩ ⟨b, hb⟩ ⟨c, hc⟩ ⟨d, hd⟩
    simp only [eqDyn, pyGetAttr, ha, hb, hc, hd]
    split_ifs <;> exact ⟨_, rfl⟩

/-- Witness for the amended C10, exercising all four conjuncts at
concrete operands: the empty object raises, objMissingIpix (order
present but unequal) returns False, objOrderOnly (order equal, ipix
absent) raises, and objFull returns a boolean. -/
theorem C10_eq_attribute_access_witness :
    eqDyn meta0 objEmpty = Except.error ("AttributeError") ∧
    eqDyn meta0 objMissingIpix = Except.ok false ∧
    eqDyn meta0 objOrderOnly = Except.error ("AttributeError") ∧
    (∃ r : Bool, eqDyn meta0 objFull = Except.ok r) :=
  ⟨(C10_eq_attribute_access meta0 objEmpty).1 rfl,
   (C10_eq_attribute_access meta0 objMissingIpix).2.1
     (PyVal.int 99) rfl (by decide),
   (C10_eq_attribute_access meta0 objOrderOnly).2.2.1
     (PyVal.int 3) rfl (by decide) rfl,
   (C10_eq_attribute_access meta0 objFull).2.2.2
     ⟨_, rfl⟩ ⟨_, rfl⟩ ⟨_, rfl⟩ ⟨_, rfl⟩⟩

/-- The concrete library lib0 satisfies the documented healpy
contract. -/
theorem lib0_healpyOK : HealpyOK lib0 := by
  refine ⟨?_, ?_, ?_, ?_, ?_⟩
  · intro n p b _ _
    exact ⟨rfl, rfl, rfl⟩
  · intro n p b _ _ v hv
    have he : npTranspose (lib0.hp_boundaries n p b) =
        [⟨1, 0, 0⟩, ⟨1, 0, 0⟩, ⟨1, 0, 0⟩, ⟨1, 0, 0⟩] := rfl
    rw [he] at hv
    simp only [List.mem_cons, List.not_mem_nil, or_false, or_self] at hv
    rw [hv]
    norm_num
  · intro vs
    exact ⟨by simp [lib0], by simp [lib0]⟩
  · intro vs t ht
    rw [show lib0.vec2ang vs = (vs.map (fun _ => 0), vs.map (fun _ => 0))
      from rfl] at ht
    simp only [List.mem_map] at ht
    obtain ⟨_, _, rfl⟩ := ht
    exact ⟨le_refl 0, by norm_num [lib0]⟩
  · intro vs q hq
    rw [show lib0.vec2ang vs = (vs.map (fun _ => 0), vs.map (fun _ => 0))
      from rfl] at hq
    simp only [List.mem_map] at hq
    obtain ⟨_, _, rfl⟩ := hq
    exact ⟨le_refl 0, by norm_num [lib0]⟩

/-- Claim C6: for a valid nside (a power of two) and a pixel index
below 12 * nside^2, under the documented healpy contract the boundaries
wrapper applies vec2ang to exactly the four corner vectors that
healpy.boundaries produces for that pixel under the ordering selected
by nest (with the omitted argument defaulting to False), those corners
are unit vectors, and the returned theta and phi are sequences of four
values with theta between 0 and pi and phi in [0, 2*pi). -/
theorem C6_boundaries_contract {R PT W : Type} [LinearOrderedField R]
    (lib : ExtLib R PT W) (hok : HealpyOK lib) (n p : ℕ) (nest : Bool)
    (hn : IsValidNside n) (hp : p < 12 * n ^ 2) :
    boundaries lib n p nest =
      lib.vec2ang (npTranspose (lib.hp_boundaries n p nest)) ∧
    boundariesDefault lib n p = boundaries lib n p false ∧
    (boundaries lib n p nest).1.length = 4 ∧
    (boundaries lib n p nest).2.length = 4 ∧
    (∀ v ∈ npTranspose (lib.hp_boundaries n p nest),
      v.x ^ 2 + v.y ^ 2 + v.z ^ 2 = 1) ∧
    (∀ t ∈ (boundaries lib n p nest).1, 0 ≤ t ∧ t ≤ lib.pi) ∧
    (∀ q ∈ (boundaries lib n p nest).2, 0 ≤ q ∧ q < 2 * lib.pi) := by
  have hlen := hok.corners_len n p nest hn hp
  have htr : (npTranspose (lib.hp_boundaries n p nest)).length = 4 := by
    simp [npTranspose, List.length_zip, hlen.1, hlen.2.1, hlen.2.2]
  refine ⟨rfl, rfl, ?_, ?_, hok.corners_unit n p nest hn hp,
    hok.vec2ang_theta _, hok.vec2ang_phi _⟩
  · rw [boundaries, (hok.vec2ang_len _).1, htr]
  · rw [boundaries, (hok.vec2ang_len _).2, htr]

/-- Witness for C6 at nside 1 (two to the zeroth power), pixel 0 and
the concrete library lib0: the wrapper returns four thetas and four
phis. -/
theorem C6_boundaries_contract_witness :
    IsValidNside 1 ∧ 0 < 12 * 1 ^ 2 ∧
    (boundaries lib0 1 0 false).1.length = 4 ∧
    (boundaries lib0 1 0 false).2.length = 4 :=
  ⟨⟨0, rfl⟩, by norm_num,
   (C6_boundaries_contract lib0 lib0_healpyOK 1 0 false ⟨0, rfl⟩
     (by norm_num)).2.2.1,
   (C6_boundaries_contract lib0 lib0_healpyOK 1 0 false ⟨0, rfl⟩
     (by norm_num)).2.2.2.1⟩

end Hips
